import Mathlib

/-!
Verification of the Notes2Notion client-side authorization and session
subsystem, shallowly embedded from the TypeScript sources:

- `frontend/lib/auth.ts` (localStorage-backed token / license-key helpers);
- `frontend/contexts/AuthContext.tsx` (the `AuthProvider` reconciler:
  `fetchUserInfo`, `refreshUser`, `logout`, the BroadcastChannel handler);
- `frontend/app/page.tsx` (the `Home` render decision);
- `frontend/components/CameraCapture.tsx` (`uploadToNotion` error handling);
- `frontend/components/NotionLoginPrompt.tsx` (`handleLogin` state encoding);
- `frontend/app/api/auth/callback/route.ts` (the OAuth callback route).

Browser builtins (`localStorage`, `btoa`/`atob`, `JSON.stringify`/`JSON.parse`
on the one object shape this code exchanges) are modelled explicitly below,
next to their uses. Network responses are passed to the embedded handlers as
explicit arguments, so each handler is a pure function of its state and the
response it observes.
-/

namespace Notes2Notion

/-! ### localStorage model

`localStorage` is a mutable string-keyed string store. We model it as a
function from keys to optional values; `setItem` / `removeItem` are the
functional updates performed by the corresponding DOM calls. -/

def Store : Type := String → Option String

def getItem (s : Store) (k : String) : Option String := s k

def setItem (s : Store) (k v : String) : Store :=
  fun k2 => if k2 = k then some v else s k2

def removeItem (s : Store) (k : String) : Store :=
  fun k2 => if k2 = k then none else s k2

def emptyStore : Store := fun _ => none

/-! ### frontend/lib/auth.ts

Each function takes a `w : Bool` flag embedding the
`typeof window === 'undefined'` guard: `w = true` is browser execution,
`w = false` is server-side rendering where every helper is a no-op. -/

def TOKEN_KEY : String := "notes2notion_session_token"

def LICENSE_KEY : String := "notes2notion_license_key"

/-- `getToken`: read the session token from localStorage. -/
def getToken (w : Bool) (s : Store) : Option String :=
  if w then getItem s TOKEN_KEY else none

/-- `setToken`: store the session token. -/
def setToken (w : Bool) (s : Store) (token : String) : Store :=
  if w then setItem s TOKEN_KEY token else s

/-- `clearToken`: remove the session token. -/
def clearToken (w : Bool) (s : Store) : Store :=
  if w then removeItem s TOKEN_KEY else s

/-- `isAuthenticated`: `getToken() !== null`. -/
def isAuthenticated (w : Bool) (s : Store) : Bool :=
  (getToken w s).isSome

/-- Model of JavaScript string `trim`/`toUpperCase` whitespace set: the
characters `String.prototype.trim` removes that can occur in practice
(HT, LF, VT, FF, CR, space, NBSP, BOM), identified by code point. -/
def jsWhitespace (c : Char) : Bool :=
  c.toNat = 9 || c.toNat = 10 || c.toNat = 11 || c.toNat = 12 ||
  c.toNat = 13 || c.toNat = 32 || c.toNat = 160 || c.toNat = 65279

def jsTrimList (l : List Char) : List Char :=
  ((l.dropWhile jsWhitespace).reverse.dropWhile jsWhitespace).reverse

/-- Model of JavaScript `String.prototype.trim`. -/
def jsTrim (s : String) : String := String.mk (jsTrimList s.data)

/-- Model of JavaScript `String.prototype.toUpperCase`, restricted to the
ASCII range (`Char.toUpper` maps `a`-`z` to `A`-`Z` and is the identity
elsewhere, exactly the behaviour on the license-key alphabet). -/
def jsToUpper (s : String) : String := String.mk (s.data.map Char.toUpper)

/-- `getLicenseKey`: read the stored license key. -/
def getLicenseKey (w : Bool) (s : Store) : Option String :=
  if w then getItem s LICENSE_KEY else none

/-- `setLicenseKey`: stores `licenseKey.trim().toUpperCase()`. -/
def setLicenseKey (w : Bool) (s : Store) (licenseKey : String) : Store :=
  if w then setItem s LICENSE_KEY (jsToUpper (jsTrim licenseKey)) else s

/-- `clearLicenseKey`: remove the stored license key. -/
def clearLicenseKey (w : Bool) (s : Store) : Store :=
  if w then removeItem s LICENSE_KEY else s

/-- `hasLicense`: `getLicenseKey() !== null`. -/
def hasLicense (w : Bool) (s : Store) : Bool :=
  (getLicenseKey w s).isSome

/-- `logout` (lib/auth.ts): `clearToken(); clearLicenseKey();`. -/
def logoutLib (w : Bool) (s : Store) : Store :=
  clearLicenseKey w (clearToken w s)

/-! ### frontend/contexts/AuthContext.tsx -/

/-- The `UserInfo` interface returned by `GET /user/info`. -/
structure UserInfo where
  workspace_name : String
  has_page_id : Bool
  bot_id : String
deriving DecidableEq

/-- Outcome of a `fetch('/api/user/info')` call as observed by the client:
either an HTTP response with a status and (for 2xx) a parsed body, or a
thrown exception (`isFetchTypeError` distinguishes a network-level
`TypeError` whose message mentions fetch from any other exception). -/
inductive FetchResult where
  | success (status : Nat) (body : UserInfo)
  | failure (isFetchTypeError : Bool)

/-- The reconciler state held by `AuthProvider` plus the browser context it
closes over: the `window` flag, localStorage, the React state fields
(`user`, `isLoading`, `error`), and whether the BroadcastChannel was
successfully created (`channel`). -/
structure ClientState where
  window : Bool
  storage : Store
  user : Option UserInfo
  isLoading : Bool
  error : Option String
  channel : Bool

def sessionExpiredMsg : String := "Session expirée. Veuillez vous reconnecter."

def licenseInvalidMsg : String := "Licence invalide. Veuillez vérifier votre clé."

def networkErrorMsg : String :=
  "Impossible de se connecter au serveur. Vérifiez votre connexion internet."

def genericErrorMsg : String := "Une erreur est survenue. Veuillez réessayer."

/-- `AuthProvider.fetchUserInfo`: no token → stop; 401 → clear token, clear
user, session-expired error; 403 → clear user, license-invalid error
(storage untouched); other non-2xx or a thrown error → error message only;
2xx → store the user info and clear the error. -/
def fetchUserInfo (st : ClientState) (resp : FetchResult) : ClientState :=
  match getToken st.window st.storage with
  | none => { st with isLoading := false, user := none }
  | some _ =>
    match resp with
    | FetchResult.success status body =>
      if status = 401 then
        { st with storage := clearToken st.window st.storage, user := none,
                  error := some sessionExpiredMsg, isLoading := false }
      else if status = 403 then
        { st with user := none, error := some licenseInvalidMsg, isLoading := false }
      else if 200 ≤ status ∧ status < 300 then
        { st with user := some body, error := none, isLoading := false }
      else
        { st with error := some genericErrorMsg, isLoading := false }
    | FetchResult.failure isFetchTypeError =>
      { st with
          error := some (if isFetchTypeError then networkErrorMsg else genericErrorMsg),
          isLoading := false }

/-- Events posted on the `notes2notion_auth` BroadcastChannel. -/
inductive BroadcastMsg where
  | logoutEvent
  | user_updated
deriving DecidableEq

/-- `AuthProvider.refreshUser`: set loading, clear the error, re-fetch, then
post `user_updated` to the other tabs (when the channel exists). Returns the
new state together with the list of messages posted. -/
def refreshUser (st : ClientState) (resp : FetchResult) : ClientState × List BroadcastMsg :=
  (fetchUserInfo { st with isLoading := true, error := none } resp,
   if st.channel then [BroadcastMsg.user_updated] else [])

/-- `AuthProvider.logout`: `clearToken(); clearLicenseKey(); setUser(null);
setError(null);` then post `logout` to the other tabs. -/
def logoutProvider (st : ClientState) : ClientState × List BroadcastMsg :=
  ({ st with storage := clearLicenseKey st.window (clearToken st.window st.storage),
             user := none, error := none },
   if st.channel then [BroadcastMsg.logoutEvent] else [])

/-- The BroadcastChannel `onmessage` handler for a received `logout` event:
`setUser(null); clearToken();`. -/
def onLogoutMessage (st : ClientState) : ClientState :=
  { st with user := none, storage := clearToken st.window st.storage }

/-- The full BroadcastChannel `onmessage` handler; a `user_updated` event
triggers `fetchUserInfo` against the current server response. -/
def onBroadcastMessage (st : ClientState) (m : BroadcastMsg) (resp : FetchResult) : ClientState :=
  match m with
  | BroadcastMsg.logoutEvent => onLogoutMessage st
  | BroadcastMsg.user_updated => fetchUserInfo st resp

/-! ### frontend/app/page.tsx (`Home`) -/

/-- The mutually exclusive screens `Home` can return. -/
inductive View where
  | loading
  | connectionError (msg : String)
  | licensePrompt
  | pageSetup (workspaceName : String)
  | loginPrompt (oauthError : Option String)
  | mainApp (workspaceName : String)
deriving DecidableEq

/-- The mount-time license check:
`!!localStorage.getItem('notes2notion_license_key')`. -/
def hasValidLicenseOnMount (s : Store) : Bool :=
  (getItem s LICENSE_KEY).isSome

/-- The `Home` render decision, in source order: loading spinner, error
screen, license prompt, page setup (user present without a page), login
prompt, main application. -/
def renderHome (isCheckingLicense : Bool) (isLoading : Bool) (error : Option String)
    (hasValidLicense : Bool) (user : Option UserInfo) (oauthError : Option String) : View :=
  if isCheckingLicense || isLoading then View.loading
  else
    match error with
    | some e => View.connectionError e
    | none =>
      if !hasValidLicense then View.licensePrompt
      else
        match user with
        | some u =>
          if !u.has_page_id then View.pageSetup u.workspace_name
          else View.mainApp u.workspace_name
        | none => View.loginPrompt oauthError

/-! ### frontend/components/CameraCapture.tsx (`uploadToNotion`) -/

/-- The parsed JSON body and status of a `/api/upload` response. -/
structure UploadResponse where
  status : Nat
  error : Option String
  message : Option String
  success : Bool

/-- The observable continuation `uploadToNotion` chooses after handling a
response (which reload / reset it schedules). -/
inductive UploadAction where
  | reloadAfterAuthFailure
  | showErrorOnly
  | reloadForPageSetup
  | refreshThenReload
  | showSuccess
deriving DecidableEq

/-- `uploadToNotion` response handling, in source order: a 401 clears the
session token (directly via `localStorage.removeItem`) only when the body
reports `Authentication failed`; a 400 `No default page configured` reloads
into page setup; a 410 `page_deleted` calls `refreshUser` and reloads;
otherwise success or an error message. `infoResp` is the `/user/info`
response observed by the `refreshUser` call in the 410 branch. -/
def uploadToNotion (st : ClientState) (resp : UploadResponse) (infoResp : FetchResult) :
    ClientState × UploadAction :=
  if resp.status = 401 then
    if resp.error = some "Authentication failed" then
      ({ st with storage := removeItem st.storage TOKEN_KEY },
       UploadAction.reloadAfterAuthFailure)
    else (st, UploadAction.showErrorOnly)
  else if resp.status = 400 ∧ resp.error = some "No default page configured" then
    (st, UploadAction.reloadForPageSetup)
  else if resp.status = 410 ∧ resp.error = some "page_deleted" then
    ((refreshUser st infoResp).1, UploadAction.refreshThenReload)
  else if resp.success then (st, UploadAction.showSuccess)
  else (st, UploadAction.showErrorOnly)

/-! ### Model of the browser `btoa` / `atob` builtins (RFC 4648 base64)

`btoa` maps each UTF-16 code unit of its argument to one byte and fails
(throws `InvalidCharacterError`, modelled as `none`) when a code unit
exceeds `0xFF`; `atob` decodes base64 back to a string of code units. -/

def base64Alphabet : List Char :=
  "ABCDEFGHIJKLMNOPQRSTUVWXYZabcdefghijklmnopqrstuvwxyz0123456789+/".data

def encodeSextet (n : Nat) : Char := base64Alphabet.getD n 'A'

def decodeSextet (c : Char) : Nat := base64Alphabet.findIdx (fun d => d = c)

def b64encodeBytes : List Nat → List Char
  | [] => []
  | [a] => [encodeSextet (a / 4), encodeSextet (a % 4 * 16), '=', '=']
  | [a, b] =>
      [encodeSextet (a / 4), encodeSextet (a % 4 * 16 + b / 16),
       encodeSextet (b % 16 * 4), '=']
  | a :: b :: c :: rest =>
      encodeSextet (a / 4) :: encodeSextet (a % 4 * 16 + b / 16) ::
      encodeSextet (b % 16 * 4 + c / 64) :: encodeSextet (c % 64) ::
      b64encodeBytes rest

def b64decodeBytes : List Char → List Nat
  | c0 :: c1 :: c2 :: c3 :: rest =>
      if c2 = '=' then [decodeSextet c0 * 4 + decodeSextet c1 / 16]
      else if c3 = '=' then
        [decodeSextet c0 * 4 + decodeSextet c1 / 16,
         decodeSextet c1 % 16 * 16 + decodeSextet c2 / 4]
      else
        (decodeSextet c0 * 4 + decodeSextet c1 / 16) ::
        (decodeSextet c1 % 16 * 16 + decodeSextet c2 / 4) ::
        (decodeSextet c2 % 4 * 64 + decodeSextet c3) ::
        b64decodeBytes rest
  | _ => []

def btoa (s : String) : Option String :=
  if s.data.all (fun c => c.toNat < 256) then
    some (String.mk (b64encodeBytes (s.data.map Char.toNat)))
  else none

/-- Model of `atob` on well-formed base64 (the only inputs the callback route
feeds it that matter: strings produced by `btoa`; on garbage the real `atob`
throws, which the route's `try`/`catch` turns into the same `null` license
as a failed `JSON.parse`). -/
def atob (s : String) : String :=
  String.mk ((b64decodeBytes s.data).map Char.ofNat)

/-! ### Model of `JSON.stringify` / `JSON.parse` on the state object

The login page sends exactly `JSON.stringify({ license: storedLicense })`
and the callback route reads exactly `JSON.parse(decoded).license`, so the
model covers JSON strings and this one object shape. -/

def hexDigitChar (n : Nat) : Char := "0123456789abcdef".data.getD n '0'

/-- `JSON.stringify` escaping of one character inside a string literal. -/
def jsonEscapeChar (c : Char) : List Char :=
  if c = '"' then ['\\', '"']
  else if c = '\\' then ['\\', '\\']
  else if c.toNat = 8 then ['\\', 'b']
  else if c.toNat = 9 then ['\\', 't']
  else if c.toNat = 10 then ['\\', 'n']
  else if c.toNat = 12 then ['\\', 'f']
  else if c.toNat = 13 then ['\\', 'r']
  else if c.toNat < 32 then
    ['\\', 'u', '0', '0', hexDigitChar (c.toNat / 16), hexDigitChar (c.toNat % 16)]
  else [c]

def jsonQuote (l : List Char) : List Char :=
  '"' :: (l.map jsonEscapeChar).flatten ++ ['"']

/-- `JSON.stringify({ license: l })`. -/
def jsonStringifyLicense (l : String) : String :=
  String.mk ("\x7b\"license\":".data ++ jsonQuote l.data ++ ['\x7d'])

def hexVal (c : Char) : Nat :=
  if 48 ≤ c.toNat ∧ c.toNat ≤ 57 then c.toNat - 48
  else if 97 ≤ c.toNat ∧ c.toNat ≤ 102 then c.toNat - 87
  else if 65 ≤ c.toNat ∧ c.toNat ≤ 70 then c.toNat - 55
  else 0

/-- JSON string-literal body parser: consumes characters (resolving the
escape sequences `JSON.parse` accepts) up to the closing quote; returns the
decoded content and the remaining input, or `none` on malformed input. -/
def jsonParseStringBody : List Char → Option (List Char × List Char)
  | [] => none
  | c :: rest =>
    if c = '"' then some ([], rest)
    else if c = '\\' then
      match rest with
      | [] => none
      | e :: r =>
        if e = '"' then (jsonParseStringBody r).map (fun p => ('"' :: p.1, p.2))
        else if e = '\\' then (jsonParseStringBody r).map (fun p => ('\\' :: p.1, p.2))
        else if e = '/' then (jsonParseStringBody r).map (fun p => ('/' :: p.1, p.2))
        else if e = 'b' then (jsonParseStringBody r).map (fun p => (Char.ofNat 8 :: p.1, p.2))
        else if e = 'f' then (jsonParseStringBody r).map (fun p => (Char.ofNat 12 :: p.1, p.2))
        else if e = 'n' then (jsonParseStringBody r).map (fun p => ('\n' :: p.1, p.2))
        else if e = 'r' then (jsonParseStringBody r).map (fun p => (Char.ofNat 13 :: p.1, p.2))
        else if e = 't' then (jsonParseStringBody r).map (fun p => ('\t' :: p.1, p.2))
        else if e = 'u' then
          match r with
          | h1 :: h2 :: h3 :: h4 :: r2 =>
            (jsonParseStringBody r2).map (fun p =>
              (Char.ofNat (hexVal h1 * 4096 + hexVal h2 * 256 + hexVal h3 * 16 + hexVal h4) :: p.1,
               p.2))
          | _ => none
        else none
    else (jsonParseStringBody rest).map (fun p => (c :: p.1, p.2))

/-- `JSON.parse(s).license` for the object shape produced by the login page:
`\x7b"license":"…"\x7d`. Any other input yields `none` (the real
`JSON.parse` either throws — caught by the route — or produces an object
whose `license` field is absent, read as `undefined`/`null`). -/
def jsonParseLicense (s : String) : Option String :=
  if "\x7b\"license\":\"".data.isPrefixOf s.data then
    match jsonParseStringBody (s.data.drop 12) with
    | some (content, rest) => if rest = ['\x7d'] then some (String.mk content) else none
    | none => none
  else none

/-! ### frontend/components/NotionLoginPrompt.tsx (`handleLogin`) -/

/-- The `state` query parameter `handleLogin` attaches to the Notion
authorize URL: `btoa(JSON.stringify(\x7b license: storedLicense \x7d))` when a
license key is stored, no parameter otherwise. The outer `none` marks the
(unreachable for stored keys) case where `btoa` throws and the click dies
with an uncaught exception. -/
def handleLoginStateParam (storage : Store) : Option (Option String) :=
  match getItem storage LICENSE_KEY with
  | some storedLicense =>
    match btoa (jsonStringifyLicense storedLicense) with
    | some st => some (some st)
    | none => none
  | none => some none

/-! ### frontend/app/api/auth/callback/route.ts (`GET`) -/

/-- Lines 52-61 of the route: decode the license key from the `state`
parameter; any failure inside the `try` leaves `licenseKey = null`. -/
def decodeStateParam (state : Option String) : Option String :=
  match state with
  | none => none
  | some s =>
    match jsonParseLicense (atob s) with
    | some l => some l
    | none => none

/-- The backend's answer to the one `POST \x2fapi\x2foauth\x2fcallback` exchange call:
a success body, a non-ok HTTP response with its parsed error body (each
field `none` when absent — a body that fails to parse is
`httpError none (some "Unknown error")`), or a thrown `fetch` error. -/
inductive ExchangeResult where
  | ok (session_token : String) (workspace_name : String) (needs_page_setup : Bool)
  | httpError (message : Option String) (errorField : Option String)
  | threw

/-- Where the route redirects: the home page with an `error` query
parameter, or the home page with the session token in the URL fragment. -/
inductive Redirect where
  | homeWithError (msg : String)
  | homeWithToken (token : String) (workspace : String) (needsSetup : Bool)
deriving DecidableEq

/-- Observable outcome of one invocation of the callback route: the
redirect, how many exchange calls were made, and — when the exchange was
called — the `license_key` value sent in its body. -/
structure CallbackOutcome where
  redirect : Redirect
  exchangeCalls : Nat
  sentLicense : Option (Option String)
deriving DecidableEq

/-- JavaScript `a || b` on nullable strings: the empty string is falsy. -/
def jsOrString (a b : Option String) : Option String :=
  match a with
  | some s => if s = "" then b else some s
  | none => b

/-- `errorData.message || errorData.error || 'OAuth authentication failed'`. -/
def exchangeErrorMessage (message errorField : Option String) : String :=
  (jsOrString message (jsOrString errorField (some "OAuth authentication failed"))).getD
    "OAuth authentication failed"

/-- The callback route `GET` handler (`FRONTEND_URL` assumed configured):
a provider `error` or a missing `code` redirects home with an error before
any exchange; otherwise the exchange runs exactly once with the decoded
license key, and its outcome decides the redirect. -/
def callbackGET (code : Option String) (state : Option String) (errorParam : Option String)
    (exchange : ExchangeResult) : CallbackOutcome :=
  match errorParam with
  | some e => ⟨Redirect.homeWithError e, 0, none⟩
  | none =>
    match code with
    | none => ⟨Redirect.homeWithError "no_code", 0, none⟩
    | some _ =>
      let licenseKey := decodeStateParam state
      match exchange with
      | ExchangeResult.threw =>
          ⟨Redirect.homeWithError "callback_failed", 1, some licenseKey⟩
      | ExchangeResult.httpError m e2 =>
          ⟨Redirect.homeWithError (exchangeErrorMessage m e2), 1, some licenseKey⟩
      | ExchangeResult.ok tok ws setup =>
          ⟨Redirect.homeWithToken tok ws setup, 1, some licenseKey⟩

/-! ## Basic storage lemmas -/

theorem getItem_setItem_self (s : Store) (k v : String) :
    getItem (setItem s k v) k = some v := by
  simp [getItem, setItem]

theorem getItem_setItem_ne (s : Store) (v : String) {k k2 : String} (h : k2 ≠ k) :
    getItem (setItem s k v) k2 = getItem s k2 := by
  simp [getItem, setItem, h]

theorem getItem_removeItem_self (s : Store) (k : String) :
    getItem (removeItem s k) k = none := by
  simp [getItem, removeItem]

theorem getItem_removeItem_ne (s : Store) {k k2 : String} (h : k2 ≠ k) :
    getItem (removeItem s k) k2 = getItem s k2 := by
  simp [getItem, removeItem, h]

theorem removeItem_idem (s : Store) (k : String) :
    removeItem (removeItem s k) k = removeItem s k := by
  funext k2
  unfold removeItem
  by_cases h : k2 = k <;> simp [h]

theorem LICENSE_KEY_ne_TOKEN_KEY : LICENSE_KEY ≠ TOKEN_KEY := by decide

theorem clearToken_idem (w : Bool) (s : Store) :
    clearToken w (clearToken w s) = clearToken w s := by
  cases w with
  | false => rfl
  | true => simp [clearToken, removeItem_idem]

theorem getLicenseKey_clearToken (s : Store) :
    getLicenseKey true (clearToken true s) = getLicenseKey true s := by
  simp [getLicenseKey, clearToken]
  exact getItem_removeItem_ne s LICENSE_KEY_ne_TOKEN_KEY

theorem hasValidLicenseOnMount_removeItem_TOKEN (s : Store) :
    hasValidLicenseOnMount (removeItem s TOKEN_KEY) = hasValidLicenseOnMount s := by
  simp [hasValidLicenseOnMount, getItem_removeItem_ne s LICENSE_KEY_ne_TOKEN_KEY]

/-! ## Sample concrete data used by the witnesses -/

def sampleLicense : String := "BETA-AAAA-BBBB-CCCC"

def sampleInfo : UserInfo := ⟨"My Workspace", true, "bot-1"⟩

def sampleStore : Store :=
  setItem (setItem emptyStore TOKEN_KEY "header.payload.sig") LICENSE_KEY sampleLicense

def sampleState : ClientState :=
  ⟨true, sampleStore, some sampleInfo, false, none, true⟩

/-! ## Claims -/

/-- C1: for every upload request answered 401 with body error
`Authentication failed` (the reauth-required classification), the client
removes only the stored session token: the token is gone afterwards, the
stored license key is unchanged, and so is every other localStorage key. -/
theorem claim1_upload_reauth_clears_session_only (st : ClientState) (resp : UploadResponse)
    (infoResp : FetchResult) (h401 : resp.status = 401)
    (hauth : resp.error = some "Authentication failed") :
    getItem (uploadToNotion st resp infoResp).1.storage TOKEN_KEY = none ∧
    getItem (uploadToNotion st resp infoResp).1.storage LICENSE_KEY =
      getItem st.storage LICENSE_KEY ∧
    ∀ k : String, k ≠ TOKEN_KEY →
      getItem (uploadToNotion st resp infoResp).1.storage k = getItem st.storage k := by
  have hres : uploadToNotion st resp infoResp =
      ({ st with storage := removeItem st.storage TOKEN_KEY },
       UploadAction.reloadAfterAuthFailure) := by
    simp [uploadToNotion, h401, hauth]
  rw [hres]
  refine ⟨getItem_removeItem_self _ _, ?_, ?_⟩
  · exact getItem_removeItem_ne st.storage LICENSE_KEY_ne_TOKEN_KEY
  · intro k hk
    exact getItem_removeItem_ne st.storage hk

theorem claim1_upload_reauth_clears_session_only_witness :
    getItem (uploadToNotion sampleState ⟨401, some "Authentication failed", none, false⟩
      (FetchResult.failure false)).1.storage TOKEN_KEY = none ∧
    getItem (uploadToNotion sampleState ⟨401, some "Authentication failed", none, false⟩
      (FetchResult.failure false)).1.storage LICENSE_KEY =
      getItem sampleState.storage LICENSE_KEY :=
  let h := claim1_upload_reauth_clears_session_only sampleState
    ⟨401, some "Authentication failed", none, false⟩ (FetchResult.failure false) rfl rfl
  ⟨h.1, h.2.1⟩

/-- C2, counterexample: a user-info request answered 403 does NOT clear the
stored license key (it stays in localStorage), and the screen shown
afterwards is the connection-error screen, not the license prompt. -/
theorem claim2_counterexample_license_not_cleared :
    getLicenseKey true (fetchUserInfo sampleState (FetchResult.success 403 sampleInfo)).storage =
      some sampleLicense ∧
    renderHome false (fetchUserInfo sampleState (FetchResult.success 403 sampleInfo)).isLoading
      (fetchUserInfo sampleState (FetchResult.success 403 sampleInfo)).error
      (hasValidLicenseOnMount (fetchUserInfo sampleState (FetchResult.success 403 sampleInfo)).storage)
      (fetchUserInfo sampleState (FetchResult.success 403 sampleInfo)).user none ≠
      View.licensePrompt := by
  constructor
  · rfl
  · decide

/-- C2, amended: on a 403 (license invalid) user-info response the client
sets the user to `null` and records the license-invalid error message, but
leaves localStorage — in particular the stored license key — untouched, and
the next render shows the error screen (the license prompt is not shown,
since the stored key still counts as a valid license on mount). -/
theorem claim2_amended_403_preserves_license (st : ClientState) (body : UserInfo)
    (t : String) (ht : getToken st.window st.storage = some t) :
    (fetchUserInfo st (FetchResult.success 403 body)).storage = st.storage ∧
    (fetchUserInfo st (FetchResult.success 403 body)).user = none ∧
    (fetchUserInfo st (FetchResult.success 403 body)).error = some licenseInvalidMsg ∧
    ∀ oe : Option String,
      renderHome false (fetchUserInfo st (FetchResult.success 403 body)).isLoading
        (fetchUserInfo st (FetchResult.success 403 body)).error
        (hasValidLicenseOnMount (fetchUserInfo st (FetchResult.success 403 body)).storage)
        (fetchUserInfo st (FetchResult.success 403 body)).user oe =
        View.connectionError licenseInvalidMsg := by
  have hres : fetchUserInfo st (FetchResult.success 403 body) =
      { st with user := none, error := some licenseInvalidMsg, isLoading := false } := by
    unfold fetchUserInfo
    rw [ht]
    simp
  rw [hres]
  refine ⟨rfl, rfl, rfl, ?_⟩
  intro oe
  simp [renderHome]

theorem claim2_amended_403_preserves_license_witness :
    (fetchUserInfo sampleState (FetchResult.success 403 sampleInfo)).storage =
      sampleState.storage ∧
    (fetchUserInfo sampleState (FetchResult.success 403 sampleInfo)).user = none ∧
    (fetchUserInfo sampleState (FetchResult.success 403 sampleInfo)).error =
      some licenseInvalidMsg :=
  let h := claim2_amended_403_preserves_license sampleState sampleInfo
    "header.payload.sig" rfl
  ⟨h.1, h.2.1, h.2.2.1⟩

/-- C4: on a 401 (session invalid) user-info response the client discards
the stored session token, sets the user to `null`, records the
session-expired message, and — once the error is dismissed by the retry
path (`refreshUser`), which finds no token — the next render shows the
login (re-authentication) prompt. -/
theorem claim4_userinfo_401_clears_session_shows_reauth (st : ClientState) (body : UserInfo)
    (hw : st.window = true) (t : String) (ht : getToken st.window st.storage = some t)
    (hlic : hasValidLicenseOnMount st.storage = true) :
    getToken (fetchUserInfo st (FetchResult.success 401 body)).window
      (fetchUserInfo st (FetchResult.success 401 body)).storage = none ∧
    (fetchUserInfo st (FetchResult.success 401 body)).user = none ∧
    (fetchUserInfo st (FetchResult.success 401 body)).error = some sessionExpiredMsg ∧
    ∀ (resp : FetchResult) (oe : Option String),
      (refreshUser (fetchUserInfo st (FetchResult.success 401 body)) resp).1.user = none ∧
      renderHome false
        (refreshUser (fetchUserInfo st (FetchResult.success 401 body)) resp).1.isLoading
        (refreshUser (fetchUserInfo st (FetchResult.success 401 body)) resp).1.error
        (hasValidLicenseOnMount
          (refreshUser (fetchUserInfo st (FetchResult.success 401 body)) resp).1.storage)
        (refreshUser (fetchUserInfo st (FetchResult.success 401 body)) resp).1.user oe =
        View.loginPrompt oe := by
  have hres : fetchUserInfo st (FetchResult.success 401 body) =
      { st with storage := clearToken st.window st.storage, user := none,
                error := some sessionExpiredMsg, isLoading := false } := by
    unfold fetchUserInfo
    rw [ht]
    simp
  rw [hres]
  have hgone : getToken st.window (clearToken st.window st.storage) = none := by
    rw [hw]
    simp [getToken, clearToken, getItem_removeItem_self]
  refine ⟨hgone, rfl, rfl, ?_⟩
  intro resp oe
  have hres2 : refreshUser
      { st with storage := clearToken st.window st.storage, user := none,
                error := some sessionExpiredMsg, isLoading := false } resp =
      ({ st with storage := clearToken st.window st.storage, user := none,
                 error := none, isLoading := false },
       if st.channel then [BroadcastMsg.user_updated] else []) := by
    unfold refreshUser fetchUserInfo
    rw [hgone]
  rw [hres2]
  have hlic2 : hasValidLicenseOnMount (clearToken st.window st.storage) = true := by
    rw [hw]
    simpa [clearToken, hasValidLicenseOnMount_removeItem_TOKEN] using hlic
  refine ⟨rfl, ?_⟩
  simp [renderHome, hlic2]

theorem claim4_userinfo_401_clears_session_shows_reauth_witness :
    getToken (fetchUserInfo sampleState (FetchResult.success 401 sampleInfo)).window
      (fetchUserInfo sampleState (FetchResult.success 401 sampleInfo)).storage = none ∧
    (fetchUserInfo sampleState (FetchResult.success 401 sampleInfo)).user = none ∧
    (fetchUserInfo sampleState (FetchResult.success 401 sampleInfo)).error =
      some sessionExpiredMsg ∧
    renderHome false
      (refreshUser (fetchUserInfo sampleState (FetchResult.success 401 sampleInfo))
        (FetchResult.failure false)).1.isLoading
      (refreshUser (fetchUserInfo sampleState (FetchResult.success 401 sampleInfo))
        (FetchResult.failure false)).1.error
      (hasValidLicenseOnMount
        (refreshUser (fetchUserInfo sampleState (FetchResult.success 401 sampleInfo))
          (FetchResult.failure false)).1.storage)
      (refreshUser (fetchUserInfo sampleState (FetchResult.success 401 sampleInfo))
        (FetchResult.failure false)).1.user none = View.loginPrompt none :=
  let h := claim4_userinfo_401_clears_session_shows_reauth sampleState sampleInfo rfl
    "header.payload.sig" rfl rfl
  ⟨h.1, h.2.1, h.2.2.1, (h.2.2.2 (FetchResult.failure false) none).2⟩

/-- C7: `AuthProvider.logout` clears both the stored session token and the
stored license key, resets the in-memory user, and posts exactly one
`logout` event on the cross-tab channel; any tab receiving that event ends
with no user and no stored session token. -/
theorem claim7_logout_clears_and_broadcasts (st : ClientState)
    (hw : st.window = true) (hc : st.channel = true) :
    getToken (logoutProvider st).1.window (logoutProvider st).1.storage = none ∧
    getLicenseKey (logoutProvider st).1.window (logoutProvider st).1.storage = none ∧
    (logoutProvider st).1.user = none ∧
    (logoutProvider st).2 = [BroadcastMsg.logoutEvent] ∧
    ∀ (other : ClientState) (resp : FetchResult), other.window = true →
      (onBroadcastMessage other BroadcastMsg.logoutEvent resp).user = none ∧
      getToken (onBroadcastMessage other BroadcastMsg.logoutEvent resp).window
        (onBroadcastMessage other BroadcastMsg.logoutEvent resp).storage = none := by
  refine ⟨?_, ?_, rfl, ?_, ?_⟩
  · show getToken st.window (clearLicenseKey st.window (clearToken st.window st.storage)) = none
    rw [hw]
    simp [getToken, clearLicenseKey, clearToken]
    rw [getItem_removeItem_ne _ (Ne.symm LICENSE_KEY_ne_TOKEN_KEY)]
    exact getItem_removeItem_self _ _
  · show getLicenseKey st.window (clearLicenseKey st.window (clearToken st.window st.storage)) = none
    rw [hw]
    simp [getLicenseKey, clearLicenseKey]
    exact getItem_removeItem_self _ _
  · show (if st.channel then [BroadcastMsg.logoutEvent] else []) = [BroadcastMsg.logoutEvent]
    rw [hc]
    rfl
  · intro other resp hw2
    refine ⟨rfl, ?_⟩
    show getToken other.window (clearToken other.window other.storage) = none
    rw [hw2]
    simp [getToken, clearToken, getItem_removeItem_self]

theorem claim7_logout_clears_and_broadcasts_witness :
    getToken (logoutProvider sampleState).1.window (logoutProvider sampleState).1.storage = none ∧
    getLicenseKey (logoutProvider sampleState).1.window
      (logoutProvider sampleState).1.storage = none ∧
    (logoutProvider sampleState).1.user = none ∧
    (logoutProvider sampleState).2 = [BroadcastMsg.logoutEvent] :=
  let h := claim7_logout_clears_and_broadcasts sampleState rfl rfl
  ⟨h.1, h.2.1, h.2.2.1, h.2.2.2.1⟩

/-- C8: the handler run on receiving a cross-tab `logout` event is
idempotent — applying it twice to any client state yields exactly the state
of applying it once, so duplicate delivery of the event is harmless. -/
theorem claim8_logout_handler_idempotent (st : ClientState) :
    onLogoutMessage (onLogoutMessage st) = onLogoutMessage st := by
  simp only [onLogoutMessage]
  rw [clearToken_idem]

/-- C10: `isAuthenticated` is equivalent to the mere presence of a stored
session token, and any string stored as the token — expired or malformed —
makes it `true`; no signature or expiry check is involved. -/
theorem claim10_isAuthenticated_token_presence (w : Bool) (st : Store) (t : String)
    (hw : w = true) :
    (isAuthenticated w st = true ↔ getToken w st ≠ none) ∧
    isAuthenticated w (setToken w st t) = true := by
  subst hw
  constructor
  · simp [isAuthenticated, Option.isSome_iff_ne_none]
  · simp [isAuthenticated, getToken, setToken, getItem_setItem_self]

/-! ## Character lemmas for C6 -/

theorem charToNat_ofNat {n : Nat} (h : n < 55296) : (Char.ofNat n).toNat = n := by
  have hv : n.isValidChar := Or.inl h
  rw [Char.ofNat, dif_pos hv]
  exact rfl

theorem toNat_toUpper (c : Char) :
    c.toUpper.toNat = if 97 ≤ c.toNat ∧ c.toNat ≤ 122 then c.toNat - 32 else c.toNat := by
  by_cases h : 97 ≤ c.toNat ∧ c.toNat ≤ 122
  · rw [if_pos h]
    simp only [Char.toUpper]
    rw [if_pos ⟨h.1, h.2⟩]
    exact charToNat_ofNat (by omega)
  · rw [if_neg h]
    simp only [Char.toUpper]
    rw [if_neg (fun hc => h ⟨hc.1, hc.2⟩)]

theorem jsWhitespace_eq_decide (c : Char) :
    jsWhitespace c = decide (c.toNat = 9 ∨ c.toNat = 10 ∨ c.toNat = 11 ∨ c.toNat = 12 ∨
      c.toNat = 13 ∨ c.toNat = 32 ∨ c.toNat = 160 ∨ c.toNat = 65279) := by
  simp [jsWhitespace, Bool.or_assoc]

/-- Uppercasing never turns a whitespace character into a non-whitespace
character or vice versa, so `trim` and `toUpperCase` commute. -/
theorem jsWhitespace_toUpper (c : Char) : jsWhitespace c.toUpper = jsWhitespace c := by
  rw [jsWhitespace_eq_decide, jsWhitespace_eq_decide, toNat_toUpper]
  by_cases h : 97 ≤ c.toNat ∧ c.toNat ≤ 122
  · rw [if_pos h]
    exact decide_eq_decide.mpr (by omega)
  · rw [if_neg h]

theorem jsTrimList_map_toUpper (l : List Char) :
    jsTrimList (l.map Char.toUpper) = (jsTrimList l).map Char.toUpper := by
  unfold jsTrimList
  have hfun : (jsWhitespace ∘ Char.toUpper) = jsWhitespace := by
    funext c
    exact jsWhitespace_toUpper c
  rw [List.dropWhile_map, hfun, ← List.map_reverse, List.dropWhile_map, hfun,
    ← List.map_reverse]

/-- C6: `setLicenseKey(s)` persists `s.trim().toUpperCase()`, which equals
`s.toUpperCase().trim()` — the stored key is the uppercased, trimmed input,
so license input is normalized case-insensitively. -/
theorem claim6_setLicenseKey_normalizes (w : Bool) (st : Store) (s : String)
    (hw : w = true) :
    getLicenseKey w (setLicenseKey w st s) = some (jsToUpper (jsTrim s)) ∧
    jsToUpper (jsTrim s) = jsTrim (jsToUpper s) := by
  subst hw
  constructor
  · simp [getLicenseKey, setLicenseKey]
    exact getItem_setItem_self _ _ _
  · show String.mk ((jsTrimList s.data).map Char.toUpper) =
      String.mk (jsTrimList ((String.mk (s.data.map Char.toUpper)).data))
    exact congrArg String.mk (jsTrimList_map_toUpper s.data).symm

theorem claim6_setLicenseKey_normalizes_witness :
    getLicenseKey true (setLicenseKey true emptyStore "  beta-aaaa-bbbb-cccc ") =
      some (jsToUpper (jsTrim "  beta-aaaa-bbbb-cccc ")) ∧
    jsToUpper (jsTrim "  beta-aaaa-bbbb-cccc ") = jsTrim (jsToUpper "  beta-aaaa-bbbb-cccc ") :=
  claim6_setLicenseKey_normalizes true emptyStore "  beta-aaaa-bbbb-cccc " rfl

/-- C3: a content upload answered `410` with error `page_deleted` makes the
client re-fetch user info via `refreshUser`; with the subsequent
`GET \x2fuser\x2finfo` reporting `has_page_id = false` (the backend has cleared
the stored page id, per the spec), the reconciler ends with that user and
the next render shows the page-setup picker. -/
theorem claim3_resource_deleted_refetch_shows_page_setup (st : ClientState)
    (resp : UploadResponse) (info : UserInfo) (t : String)
    (ht : getToken st.window st.storage = some t)
    (hlic : hasValidLicenseOnMount st.storage = true)
    (hs : resp.status = 410) (he : resp.error = some "page_deleted")
    (hinfo : info.has_page_id = false) :
    (uploadToNotion st resp (FetchResult.success 200 info)).2 =
      UploadAction.refreshThenReload ∧
    (uploadToNotion st resp (FetchResult.success 200 info)).1.user = some info ∧
    renderHome false (uploadToNotion st resp (FetchResult.success 200 info)).1.isLoading
      (uploadToNotion st resp (FetchResult.success 200 info)).1.error
      (hasValidLicenseOnMount (uploadToNotion st resp (FetchResult.success 200 info)).1.storage)
      (uploadToNotion st resp (FetchResult.success 200 info)).1.user none =
      View.pageSetup info.workspace_name := by
  have hres : uploadToNotion st resp (FetchResult.success 200 info) =
      ((refreshUser st (FetchResult.success 200 info)).1, UploadAction.refreshThenReload) := by
    simp [uploadToNotion, hs, he]
  have hres2 : (refreshUser st (FetchResult.success 200 info)).1 =
      { st with user := some info, error := none, isLoading := false } := by
    unfold refreshUser fetchUserInfo
    simp only
    rw [ht]
    simp
  rw [hres, hres2]
  refine ⟨rfl, rfl, ?_⟩
  simp [renderHome, hlic, hinfo]

theorem claim3_resource_deleted_refetch_shows_page_setup_witness :
    (uploadToNotion sampleState ⟨410, some "page_deleted", some "page gone", false⟩
      (FetchResult.success 200 ⟨"My Workspace", false, "bot-1"⟩)).2 =
      UploadAction.refreshThenReload ∧
    renderHome false
      (uploadToNotion sampleState ⟨410, some "page_deleted", some "page gone", false⟩
        (FetchResult.success 200 ⟨"My Workspace", false, "bot-1"⟩)).1.isLoading
      (uploadToNotion sampleState ⟨410, some "page_deleted", some "page gone", false⟩
        (FetchResult.success 200 ⟨"My Workspace", false, "bot-1"⟩)).1.error
      (hasValidLicenseOnMount
        (uploadToNotion sampleState ⟨410, some "page_deleted", some "page gone", false⟩
          (FetchResult.success 200 ⟨"My Workspace", false, "bot-1"⟩)).1.storage)
      (uploadToNotion sampleState ⟨410, some "page_deleted", some "page gone", false⟩
        (FetchResult.success 200 ⟨"My Workspace", false, "bot-1"⟩)).1.user none =
      View.pageSetup "My Workspace" :=
  let h := claim3_resource_deleted_refetch_shows_page_setup sampleState
    ⟨410, some "page_deleted", some "page gone", false⟩ ⟨"My Workspace", false, "bot-1"⟩
    "header.payload.sig" rfl rfl rfl rfl rfl
  ⟨h.1, h.2.2⟩

/-- C5: the OAuth callback route performs zero exchange calls when the
provider reported an error or sent no authorization code (redirecting home
with that error); with a code it calls the exchange exactly once, never
more; and when the exchange response is non-success it redirects home with
the derived error message and never redirects with a session token. -/
theorem claim5_callback_exchange_behavior (code state errorParam : Option String)
    (ex : ExchangeResult) :
    (∀ e, errorParam = some e →
      (callbackGET code state errorParam ex).exchangeCalls = 0 ∧
      (callbackGET code state errorParam ex).redirect = Redirect.homeWithError e) ∧
    (errorParam = none → code = none →
      (callbackGET code state errorParam ex).exchangeCalls = 0 ∧
      (callbackGET code state errorParam ex).redirect = Redirect.homeWithError "no_code") ∧
    (errorParam = none → ∀ c, code = some c →
      (callbackGET code state errorParam ex).exchangeCalls = 1) ∧
    (errorParam = none → ∀ c, code = some c → ∀ m ef, ex = ExchangeResult.httpError m ef →
      (callbackGET code state errorParam ex).redirect =
        Redirect.homeWithError (exchangeErrorMessage m ef) ∧
      ∀ tok ws ns, (callbackGET code state errorParam ex).redirect ≠
        Redirect.homeWithToken tok ws ns) := by
  refine ⟨?_, ?_, ?_, ?_⟩
  · intro e he
    subst he
    exact ⟨rfl, rfl⟩
  · intro he hc
    subst he
    subst hc
    exact ⟨rfl, rfl⟩
  · intro he c hc
    subst he
    subst hc
    cases ex <;> rfl
  · intro he c hc m ef hex
    subst he
    subst hc
    subst hex
    exact ⟨rfl, fun tok ws ns => by simp [callbackGET]⟩

theorem claim5_callback_exchange_behavior_witness :
    ((callbackGET none none (some "access_denied") ExchangeResult.threw).exchangeCalls = 0 ∧
      (callbackGET none none (some "access_denied") ExchangeResult.threw).redirect =
        Redirect.homeWithError "access_denied") ∧
    ((callbackGET none none none ExchangeResult.threw).exchangeCalls = 0) ∧
    ((callbackGET (some "authcode") none none
        (ExchangeResult.httpError (some "License already used") none)).exchangeCalls = 1) ∧
    ((callbackGET (some "authcode") none none
        (ExchangeResult.httpError (some "License already used") none)).redirect =
      Redirect.homeWithError
        (exchangeErrorMessage (some "License already used") none)) :=
  ⟨(claim5_callback_exchange_behavior none none (some "access_denied")
      ExchangeResult.threw).1 "access_denied" rfl,
   ((claim5_callback_exchange_behavior none none none ExchangeResult.threw).2.1 rfl rfl).1,
   (claim5_callback_exchange_behavior (some "authcode") none none
      (ExchangeResult.httpError (some "License already used") none)).2.2.1 rfl "authcode" rfl,
   ((claim5_callback_exchange_behavior (some "authcode") none none
      (ExchangeResult.httpError (some "License already used") none)).2.2.2 rfl "authcode" rfl
      (some "License already used") none rfl).1⟩

/-! ## Base64 round-trip (for C9) -/

theorem decodeSextet_encodeSextet : ∀ n < 64, decodeSextet (encodeSextet n) = n := by
  decide

theorem encodeSextet_ne_pad : ∀ n < 64, encodeSextet n ≠ '=' := by
  decide

theorem b64_roundtrip : ∀ bs : List Nat, (∀ b ∈ bs, b < 256) →
    b64decodeBytes (b64encodeBytes bs) = bs
  | [], _ => rfl
  | [a], h => by
    have ha : a < 256 := h a (by simp)
    have h0 : decodeSextet (encodeSextet (a / 4)) = a / 4 :=
      decodeSextet_encodeSextet (a / 4) (by omega)
    have h1 : decodeSextet (encodeSextet (a % 4 * 16)) = a % 4 * 16 :=
      decodeSextet_encodeSextet (a % 4 * 16) (by omega)
    simp [b64encodeBytes, b64decodeBytes, h0, h1]
    omega
  | [a, b], h => by
    have ha : a < 256 := h a (by simp)
    have hb : b < 256 := h b (by simp)
    have h0 : decodeSextet (encodeSextet (a / 4)) = a / 4 :=
      decodeSextet_encodeSextet (a / 4) (by omega)
    have h1 : decodeSextet (encodeSextet (a % 4 * 16 + b / 16)) = a % 4 * 16 + b / 16 :=
      decodeSextet_encodeSextet (a % 4 * 16 + b / 16) (by omega)
    have h2 : decodeSextet (encodeSextet (b % 16 * 4)) = b % 16 * 4 :=
      decodeSextet_encodeSextet (b % 16 * 4) (by omega)
    have hne2 : encodeSextet (b % 16 * 4) ≠ '=' := encodeSextet_ne_pad (b % 16 * 4) (by omega)
    simp [b64encodeBytes, b64decodeBytes, hne2, h0, h1, h2]
    omega
  | a :: b :: c :: rest, h => by
    have ha : a < 256 := h a (by simp)
    have hb : b < 256 := h b (by simp)
    have hc : c < 256 := h c (by simp)
    have hrest : ∀ x ∈ rest, x < 256 := fun x hx => h x (by simp [hx])
    have h0 : decodeSextet (encodeSextet (a / 4)) = a / 4 :=
      decodeSextet_encodeSextet (a / 4) (by omega)
    have h1 : decodeSextet (encodeSextet (a % 4 * 16 + b / 16)) = a % 4 * 16 + b / 16 :=
      decodeSextet_encodeSextet (a % 4 * 16 + b / 16) (by omega)
    have h2 : decodeSextet (encodeSextet (b % 16 * 4 + c / 64)) = b % 16 * 4 + c / 64 :=
      decodeSextet_encodeSextet (b % 16 * 4 + c / 64) (by omega)
    have h3 : decodeSextet (encodeSextet (c % 64)) = c % 64 :=
      decodeSextet_encodeSextet (c % 64) (by omega)
    have hne2 : encodeSextet (b % 16 * 4 + c / 64) ≠ '=' :=
      encodeSextet_ne_pad (b % 16 * 4 + c / 64) (by omega)
    have hne3 : encodeSextet (c % 64) ≠ '=' := encodeSextet_ne_pad (c % 64) (by omega)
    have ih := b64_roundtrip rest hrest
    simp [b64encodeBytes, b64decodeBytes, hne2, hne3, h0, h1, h2, h3, ih]
    omega

theorem charOfNat_toNat (c : Char) : Char.ofNat c.toNat = c := by
  have hv : c.toNat.isValidChar := c.valid
  rw [Char.ofNat, dif_pos hv]
  exact Char.ext rfl

/-- `atob` applied to the encoding `btoa` produces recovers the original
Latin-1 string. -/
theorem atob_encode (s : String) (h : ∀ c ∈ s.data, c.toNat < 256) :
    atob (String.mk (b64encodeBytes (s.data.map Char.toNat))) = s := by
  unfold atob
  have hb : ∀ x ∈ s.data.map Char.toNat, x < 256 := by
    intro x hx
    obtain ⟨c, hc, rfl⟩ := List.mem_map.mp hx
    exact h c hc
  show String.mk ((b64decodeBytes (b64encodeBytes (s.data.map Char.toNat))).map Char.ofNat) = s
  rw [b64_roundtrip _ hb, List.map_map]
  have hid : (Char.ofNat ∘ Char.toNat) = id := funext charOfNat_toNat
  rw [hid, List.map_id]

/-! ## JSON round-trip (for C9) -/

/-- Characters that JSON-escape to themselves, fit in one `btoa` byte and
cannot terminate the parsed string literal — every character of a stored
license key (`PREFIX-XXXX-XXXX-XXXX` over an alphanumeric alphabet)
qualifies. -/
def plainChar (c : Char) : Bool :=
  decide (32 ≤ c.toNat) && decide (c.toNat < 256) && !(c = '"' : Bool) && !(c = '\\' : Bool)

theorem plainChar_spec {c : Char} (h : plainChar c = true) :
    32 ≤ c.toNat ∧ c.toNat < 256 ∧ c ≠ '"' ∧ c ≠ '\\' := by
  simp [plainChar] at h
  exact ⟨h.1.1.1, h.1.1.2, h.1.2, h.2⟩

theorem jsonEscapeChar_plain {c : Char} (h : plainChar c = true) :
    jsonEscapeChar c = [c] := by
  obtain ⟨h1, _, h3, h4⟩ := plainChar_spec h
  unfold jsonEscapeChar
  rw [if_neg h3, if_neg h4, if_neg (by omega), if_neg (by omega), if_neg (by omega),
    if_neg (by omega), if_neg (by omega), if_neg (by omega)]

theorem flatten_escape_plain (l : List Char) (h : l.all plainChar = true) :
    (l.map jsonEscapeChar).flatten = l := by
  induction l with
  | nil => rfl
  | cons c t ih =>
    rw [List.all_cons, Bool.and_eq_true] at h
    simp [jsonEscapeChar_plain h.1, ih h.2]

theorem jsonParseStringBody_plain (l rest : List Char) (h : l.all plainChar = true) :
    jsonParseStringBody (l ++ '"' :: rest) = some (l, rest) := by
  induction l with
  | nil =>
    rw [List.nil_append, jsonParseStringBody.eq_def]
    rfl
  | cons c t ih =>
    rw [List.all_cons, Bool.and_eq_true] at h
    obtain ⟨_, _, h3, h4⟩ := plainChar_spec h.1
    rw [List.cons_append, jsonParseStringBody.eq_def]
    dsimp only
    rw [if_neg h3, if_neg h4, ih h.2]
    rfl

theorem jsonParseLicense_stringify (L : String) (h : L.data.all plainChar = true) :
    jsonParseLicense (jsonStringifyLicense L) = some L := by
  have hdata : (jsonStringifyLicense L).data =
      "\x7b\"license\":\"".data ++ (L.data ++ '"' :: ['\x7d']) := by
    show "\x7b\"license\":".data ++ jsonQuote L.data ++ ['\x7d'] =
      "\x7b\"license\":\"".data ++ (L.data ++ '"' :: ['\x7d'])
    rw [jsonQuote, flatten_escape_plain L.data h]
    simp
  unfold jsonParseLicense
  rw [hdata]
  have hpre : ("\x7b\"license\":\"".data).isPrefixOf
      ("\x7b\"license\":\"".data ++ (L.data ++ '"' :: ['\x7d'])) = true := by
    rw [List.isPrefixOf_iff_prefix]
    exact ⟨L.data ++ '"' :: ['\x7d'], rfl⟩
  rw [if_pos hpre]
  have hlen : ("\x7b\"license\":\"".data ++ (L.data ++ '"' :: ['\x7d'])).drop 12 =
      L.data ++ '"' :: ['\x7d'] := by
    have : ("\x7b\"license\":\"".data).length = 12 := by decide
    rw [← this, List.drop_left]
  rw [hlen, jsonParseStringBody_plain L.data ['\x7d'] h]
  rfl

/-! ## C9: the license key survives the OAuth state parameter round-trip -/

theorem plainChar_lt256 {L : String} (h : L.data.all plainChar = true) :
    ∀ c ∈ (jsonStringifyLicense L).data, c.toNat < 256 := by
  have hdata : (jsonStringifyLicense L).data =
      "\x7b\"license\":".data ++ ('"' :: L.data ++ '"' :: ['\x7d']) := by
    show "\x7b\"license\":".data ++ jsonQuote L.data ++ ['\x7d'] =
      "\x7b\"license\":".data ++ ('"' :: L.data ++ '"' :: ['\x7d'])
    rw [jsonQuote, flatten_escape_plain L.data h]
    simp
  rw [hdata]
  intro c hc
  rw [List.mem_append] at hc
  rcases hc with hc | hc
  · revert c
    decide
  · rw [List.cons_append, List.mem_cons] at hc
    rcases hc with rfl | hc
    · decide
    rw [List.mem_append] at hc
    rcases hc with hc | hc
    · have := List.all_eq_true.mp h c hc
      exact (plainChar_spec this).2.1
    · revert hc
      revert c
      decide

/-- C9: round-trip of the license key through the OAuth `state` parameter.
If a license key `L` (over the plain license-key alphabet) is stored,
`handleLogin` attaches `state = btoa(JSON.stringify(\x7b license: L \x7d))` and
the callback route decodes it back, so the `license_key` it sends to the
backend exchange is exactly `L`; when no license key is stored, no `state`
parameter is attached and the exchange receives `license_key = null`. -/
theorem claim9_license_state_roundtrip (storage : Store) (L c : String)
    (ex : ExchangeResult) (hplain : L.data.all plainChar = true) :
    (getItem storage LICENSE_KEY = some L →
      handleLoginStateParam storage =
        some (some (String.mk (b64encodeBytes ((jsonStringifyLicense L).data.map Char.toNat)))) ∧
      (callbackGET (some c)
        (some (String.mk (b64encodeBytes ((jsonStringifyLicense L).data.map Char.toNat))))
        none ex).sentLicense = some (some L)) ∧
    (getItem storage LICENSE_KEY = none →
      handleLoginStateParam storage = some none ∧
      (callbackGET (some c) none none ex).sentLicense = some none) := by
  have h256 := plainChar_lt256 hplain
  have hball : (jsonStringifyLicense L).data.all (fun ch => decide (ch.toNat < 256)) = true := by
    rw [List.all_eq_true]
    intro ch hch
    exact decide_eq_true (h256 ch hch)
  have hbtoa : btoa (jsonStringifyLicense L) =
      some (String.mk (b64encodeBytes ((jsonStringifyLicense L).data.map Char.toNat))) := by
    unfold btoa
    rw [if_pos hball]
  have hdecode : decodeStateParam
      (some (String.mk (b64encodeBytes ((jsonStringifyLicense L).data.map Char.toNat)))) =
      some L := by
    unfold decodeStateParam
    dsimp only
    rw [atob_encode (jsonStringifyLicense L) h256, jsonParseLicense_stringify L hplain]
  constructor
  · intro hstored
    constructor
    · unfold handleLoginStateParam
      rw [hstored]
      dsimp only
      rw [hbtoa]
    · cases ex <;> simp [callbackGET, hdecode]
  · intro hempty
    constructor
    · unfold handleLoginStateParam
      rw [hempty]
    · cases ex <;> simp [callbackGET, decodeStateParam]

theorem claim9_license_state_roundtrip_witness :
    handleLoginStateParam sampleStore =
      some (some (String.mk (b64encodeBytes
        ((jsonStringifyLicense sampleLicense).data.map Char.toNat)))) ∧
    (callbackGET (some "authcode")
      (some (String.mk (b64encodeBytes
        ((jsonStringifyLicense sampleLicense).data.map Char.toNat))))
      none ExchangeResult.threw).sentLicense = some (some sampleLicense) :=
  (claim9_license_state_roundtrip sampleStore sampleLicense "authcode"
    ExchangeResult.threw (by decide)).1 rfl

theorem claim10_isAuthenticated_token_presence_witness :
    (isAuthenticated true sampleStore = true ↔ getToken true sampleStore ≠ none) ∧
    isAuthenticated true (setToken true sampleStore "eyJ.expired.token") = true :=
  claim10_isAuthenticated_token_presence true sampleStore "eyJ.expired.token" rfl

end Notes2Notion
